import Mathlib

/-!
Shallow embedding of the openclaw-voice conversation core:
the message store (src/stores/appStore.ts), the gateway WebSocket client
(src/services/gateway.ts) and the conversation orchestrator
(src/services/conversation.ts).

Stateful TypeScript module code is embedded as explicit state passing:
each event handler or exported function becomes a Lean function from the
module state (plus environment inputs such as transcripts or timestamps)
to the new module state, together with the externally observable actions
it performs.  JavaScript timers are modelled explicitly: a scheduled
timeout is a component of the state, and its expiry is a separate step
function that first consumes the schedule and then runs the callback body.
-/

namespace OpenClawVoice

/-! ### JavaScript string semantics

`String.prototype.trim` removes leading and trailing whitespace; a string
is truthy exactly when it is non-empty.  `jsWhitespace` covers the
whitespace characters relevant here. -/

def jsWhitespace (c : Char) : Bool :=
  c = ' ' || c = '\t' || c = '\n' || c = '\r' ||
  c = '\x0b' || c = '\x0c' || c = ' '

/-- `trimNonempty s` is the truthiness of `s.trim()` in JavaScript:
true exactly when `s` contains some non-whitespace character. -/
def trimNonempty (s : String) : Bool :=
  s.data.any (fun c => !jsWhitespace c)

/-- `jsTrim s` models `s.trim()`. -/
def jsTrim (s : String) : String :=
  ⟨(((s.data.dropWhile jsWhitespace).reverse).dropWhile jsWhitespace).reverse⟩

/-! ### Message store (src/stores/appStore.ts)

`ChatMessage` is `{role, text, timestamp}` from src/types; `addMessage`
is the store update `messages: [...state.messages.slice(-50), message]`.
`slice(-50)` keeps the last (up to) 50 elements, i.e. drops all but the
last 50. -/

inductive Role
  | user
  | assistant
deriving DecidableEq, Repr

structure ChatMessage where
  role : Role
  text : String
  timestamp : Nat
deriving DecidableEq, Repr

def addMessage (messages : List ChatMessage) (message : ChatMessage) :
    List ChatMessage :=
  (messages.drop (messages.length - 50)) ++ [message]

/-! ### Gateway WebSocket client (src/services/gateway.ts)

Module-level mutable state (`_ws`, `_config`, `_reqId`, `_pendingRequests`,
`_reconnectTimer`, `_tickTimer`, `_isConnected`) becomes `GatewayState`.
The pending-request `Map` keys are the request ids; the stored
resolve/reject closures are represented by the `SettleAction` a step
reports.  Sent frames and armed per-request timeout timers are recorded
in the state so that theorems can observe them. -/

inductive WsReady
  | connecting
  | open
  | closing
  | closed
deriving DecidableEq, Repr

structure GatewayConfig where
  url : String
  token : String
deriving DecidableEq, Repr

structure GatewayRequest where
  id : String
  method : String
deriving DecidableEq, Repr

inductive ConnState
  | disconnected
  | connecting
  | connected
  | error
deriving DecidableEq, Repr

structure GatewayState where
  ws : Option WsReady
  config : Option GatewayConfig
  reqId : Nat
  pending : List String
  reconnectTimerArmed : Bool
  tickTimerArmed : Bool
  isConnected : Bool
  sentFrames : List GatewayRequest
  requestTimeoutsArmed : List String
deriving DecidableEq, Repr

/-- How a call to `send(frame)` starts: either the promise is rejected
immediately (socket absent or not OPEN), or the caller is registered in
`_pendingRequests`, the frame is written to the socket and a 30 s timeout
is armed. -/
inductive SendStart
  | rejected (msg : String)
  | registered
deriving DecidableEq, Repr

def gwSend (st : GatewayState) (frame : GatewayRequest) :
    GatewayState × SendStart :=
  match st.ws with
  | none => (st, .rejected "WebSocket not connected")
  | some rs =>
    if rs = WsReady.open then
      ({ st with pending := st.pending ++ [frame.id],
                 sentFrames := st.sentFrames ++ [frame],
                 requestTimeoutsArmed := st.requestTimeoutsArmed ++ [frame.id] },
       .registered)
    else (st, .rejected "WebSocket not connected")

/-- How a settle step acted on the registered caller. `noop` means no
registration was found for the id. -/
inductive SettleAction
  | resolved
  | rejectedError (msg : String)
  | rejectedTimeout (msg : String)
  | noop
deriving DecidableEq, Repr

/-- The `frame.type === 'res'` branch of `handleFrame`: look up the
pending registration for `id`; if present, delete it and settle the
caller according to `ok` (the error message defaults to
"Unknown error"). -/
def handleRes (st : GatewayState) (id : String) (ok : Bool)
    (errMsg : Option String) : GatewayState × SettleAction :=
  if id ∈ st.pending then
    ({ st with pending := st.pending.filter (fun x => x != id) },
     if ok then .resolved else .rejectedError (errMsg.getD "Unknown error"))
  else (st, .noop)

/-- Expiry of the 30 s timeout armed by `send`: the scheduled timeout is
consumed, then the callback rejects the request if (and only if) its
registration is still present. -/
def fireRequestTimeout (st : GatewayState) (id : String) (method : String) :
    GatewayState × SettleAction :=
  let st := { st with requestTimeoutsArmed := st.requestTimeoutsArmed.erase id }
  if id ∈ st.pending then
    ({ st with pending := st.pending.filter (fun x => x != id) },
     .rejectedTimeout s!"Request {method} timed out")
  else (st, .noop)

/-- Observable actions of the `ws.onclose` handler: connection-state
callbacks fired, and which pending requests were rejected during the
close (with their error message). -/
structure CloseEffects where
  stateEvents : List ConnState
  rejections : List (String × String)
deriving DecidableEq, Repr

/-- The `ws.onclose` handler together with `scheduleReconnect`:
`_isConnected = false`, the tick keepalive interval is cleared, the
state-change callback fires with 'disconnected', and a reconnect timer
is armed unless one already is.  The pending-request map is not
touched. -/
def handleClose (st : GatewayState) : GatewayState × CloseEffects :=
  let st1 := { st with isConnected := false, tickTimerArmed := false }
  let st2 := if st1.reconnectTimerArmed then st1
             else { st1 with reconnectTimerArmed := true }
  (st2, ⟨[ConnState.disconnected], []⟩)

/-! #### Event dispatch (`handleEvent`) -/

/-- The fields of an event payload that `handleEvent` inspects
(`payload?.role`, `payload?.text`, `payload?.type`, `payload?.messageId`);
`none` models an absent (`undefined`) field. -/
structure EventPayload where
  role : Option String
  text : Option String
  ptype : Option String
  messageId : Option String
deriving DecidableEq, Repr

/-- JavaScript truthiness of an optional string field: truthy exactly
when present and non-empty. -/
def truthy : Option String → Bool
  | none => false
  | some s => s != ""

/-- Observable actions of `handleEvent`: each invocation of the
registered `_onMessage` handler (with the `text` argument it was given;
`none` models passing `undefined`), and whether the `connect.challenge`
branch started the handshake (`doConnect`). -/
structure EventEffects where
  messageCalls : List (Option String)
  connectStarted : Bool
deriving DecidableEq, Repr

def handleEvent (ev : String) (p : EventPayload) : EventEffects :=
  if ev = "connect.challenge" then ⟨[], true⟩
  else if ev = "chat" then
    ⟨(if (p.role == some "assistant") && truthy p.text then [p.text] else [])
      ++ (if (p.ptype == some "message") && (p.role == some "assistant")
          then [p.text] else []),
     false⟩
  else if ev = "chat.reply" then
    ⟨if truthy p.text then [p.text] else [], false⟩
  else if ev = "chat.stream" then ⟨[], false⟩
  else ⟨[], false⟩

/-! ### Conversation orchestrator (src/services/conversation.ts)

Module-level mutable state (`_phase`, `_activeListener`, `_silenceTimer`,
`_lastPartialText`, `_silenceThresholdMs`, `_waitingForResponse`) becomes
`ConvState`.  The single `_silenceTimer` slot holds either the 10 s
no-speech guard armed in `beginListening` or the per-update silence
countdown armed in `resetSilenceTimer`; `TimerKind` records which.  The
anonymous 30 s response timeout scheduled at the end of
`onSilenceDetected` is not stored in any module variable, so it can never
be cleared; `responseTimers` counts how many of these are scheduled.
Callback emissions (`_onNewMessage`, `_onTranscript`) are accumulated in
the state; `captureSessions` counts successful `Whisper.startListening`
calls so that restarts of the capture session are observable.
Environment inputs (whether starting capture or the gateway send
succeeds, the final transcript, the clock) are passed as arguments. -/

inductive Phase
  | idle
  | listening
  | processing
  | speaking
deriving DecidableEq, Repr

inductive TimerKind
  | noSpeechGuard
  | silenceCountdown
deriving DecidableEq, Repr

structure ConvState where
  phase : Phase
  silenceTimer : Option TimerKind
  lastPartialText : String
  silenceThresholdMs : Nat
  waitingForResponse : Bool
  activeListener : Bool
  ttsActive : Bool
  responseTimers : Nat
  captureSessions : Nat
  emitted : List ChatMessage
  transcripts : List (String × Bool)
deriving DecidableEq, Repr

def initConvState : ConvState :=
  { phase := .idle, silenceTimer := none, lastPartialText := "",
    silenceThresholdMs := 1500, waitingForResponse := false,
    activeListener := false, ttsActive := false, responseTimers := 0,
    captureSessions := 0, emitted := [], transcripts := [] }

def setPhase (st : ConvState) (p : Phase) : ConvState :=
  if st.phase = p then st else { st with phase := p }

def clearSilenceTimer (st : ConvState) : ConvState :=
  { st with silenceTimer := none }

/-- `resetSilenceTimer`: clear the timer slot, then arm the silence
countdown only if the last partial text is non-whitespace. -/
def resetSilenceTimer (st : ConvState) : ConvState :=
  let st := clearSilenceTimer st
  if trimNonempty st.lastPartialText then
    { st with silenceTimer := some .silenceCountdown }
  else st

/-- `beginListening`: enter `listening`, reset the partial text, start a
new capture session and arm the 10 s no-speech guard; if starting the
recognizer fails (`captureOk = false`), fall back to `idle`. -/
def beginListening (st : ConvState) (captureOk : Bool) : ConvState :=
  let st := setPhase st .listening
  let st := { st with lastPartialText := "" }
  if captureOk then
    { st with activeListener := true,
              captureSessions := st.captureSessions + 1,
              silenceTimer := some .noSpeechGuard }
  else
    setPhase st .idle

/-- The `onPartialResult` callback installed by `beginListening`: record
the partial text, emit it as a non-final transcript, and reset the
silence timer. -/
def onPartialResult (st : ConvState) (text : String) : ConvState :=
  let st := { st with lastPartialText := text,
                      transcripts := st.transcripts ++ [(text, false)] }
  resetSilenceTimer st

/-- Expiry of the 10 s no-speech guard armed in `beginListening`: the
scheduled timer is consumed (a fired timeout is no longer scheduled;
the later `clearTimeout` on its stale handle is a no-op), then the
callback body runs `resetSilenceTimer` when still listening with no
non-whitespace partial text. -/
def fireNoSpeechGuard (st : ConvState) : ConvState :=
  let st := { st with silenceTimer := none }
  if st.phase = .listening ∧ ¬(trimNonempty st.lastPartialText = true) then
    resetSilenceTimer st
  else st

/-- `onSilenceDetected`: stop the recognizer and read the final
transcript `finalText`; an all-whitespace transcript restarts listening
with no turn; otherwise emit the final transcript and the user
`ChatMessage`, enter `processing`, set the waiting flag and send to the
gateway (`sendOk` = whether `Gateway.sendMessage` succeeded; on failure
the flag is cleared and listening restarts).  In both cases the
anonymous 30 s response timeout is then scheduled. -/
def onSilenceDetected (st : ConvState) (finalText : String)
    (sendOk : Bool) (captureOk : Bool) (now : Nat) : ConvState :=
  if st.phase ≠ .listening ∨ st.activeListener = false then st
  else
    let st := { st with activeListener := false }
    let text := jsTrim finalText
    if text = "" then beginListening st captureOk
    else
      let st := { st with transcripts := st.transcripts ++ [(text, true)],
                          emitted := st.emitted ++ [⟨.user, text, now⟩] }
      let st := setPhase st .processing
      let st := { st with waitingForResponse := true }
      let st :=
        if sendOk then st
        else beginListening { st with waitingForResponse := false } captureOk
      { st with responseTimers := st.responseTimers + 1 }

/-- Expiry of the silence countdown armed in `resetSilenceTimer`: the
timer is consumed and `onSilenceDetected` runs. -/
def fireSilenceCountdown (st : ConvState) (finalText : String)
    (sendOk : Bool) (captureOk : Bool) (now : Nat) : ConvState :=
  let st := { st with silenceTimer := none }
  onSilenceDetected st finalText sendOk captureOk now

/-- Expiry of one anonymous 30 s response timeout: the scheduled timeout
is consumed, then the callback clears the waiting flag and restarts
listening only if still waiting in `processing`. -/
def fireResponseTimer (st : ConvState) (captureOk : Bool) : ConvState :=
  let st := { st with responseTimers := st.responseTimers - 1 }
  if st.waitingForResponse = true ∧ st.phase = .processing then
    beginListening { st with waitingForResponse := false } captureOk
  else st

/-- `handleAssistantReply` up to starting synthesis: emit the assistant
`ChatMessage`, enter `speaking` and start TTS (its completion is the
separate `onSpeakDone` event). -/
def handleAssistantReply (st : ConvState) (text : String) (now : Nat) :
    ConvState :=
  let st := { st with emitted := st.emitted ++ [⟨.assistant, text, now⟩] }
  let st := setPhase st .speaking
  { st with ttsActive := true }

/-- The `Gateway.onMessage` handler installed by `init`: a reply is
processed only while the waiting flag is set, and clears it first. -/
def onGatewayMessage (st : ConvState) (text : String) (now : Nat) :
    ConvState :=
  if st.waitingForResponse then
    handleAssistantReply { st with waitingForResponse := false } text now
  else st

/-- Completion of `TTS.speak`: back to listening when still speaking. -/
def onSpeakDone (st : ConvState) (captureOk : Bool) : ConvState :=
  let st := { st with ttsActive := false }
  if st.phase = .speaking then beginListening st captureOk else st

/-- Exported `start()`. -/
def start (st : ConvState) (captureOk : Bool) : ConvState :=
  if st.phase ≠ .idle then st else beginListening st captureOk

/-- Exported `stop()`: clear the silence timer, stop TTS, clear the
waiting flag, stop the active recognizer if any, and go `idle`. -/
def stop (st : ConvState) : ConvState :=
  let st := clearSilenceTimer st
  let st := { st with ttsActive := false }
  let st := { st with waitingForResponse := false }
  let st := if st.activeListener then { st with activeListener := false }
            else st
  setPhase st .idle

/-- Exported `setSilenceThreshold(ms)`: clamp to [500, 5000]. -/
def setSilenceThreshold (st : ConvState) (ms : Nat) : ConvState :=
  { st with silenceThresholdMs := max 500 (min 5000 ms) }

/-- Exported `interrupt()`: only meaningful while speaking — stop TTS
and restart listening; otherwise do nothing. -/
def interrupt (st : ConvState) (captureOk : Bool) : ConvState :=
  if st.phase = .speaking then
    beginListening { st with ttsActive := false } captureOk
  else st

/-! ### Concrete states used to instantiate the theorems -/

/-- A gateway state whose socket has closed with one request in flight:
`rn-1` is registered in `_pendingRequests` and its 30 s timeout armed. -/
def exPendingClose : GatewayState :=
  { ws := some .closed, config := some ⟨"ws://gw", "tok"⟩, reqId := 1,
    pending := ["rn-1"], reconnectTimerArmed := false,
    tickTimerArmed := true, isConnected := true,
    sentFrames := [⟨"rn-1", "chat.send"⟩],
    requestTimeoutsArmed := ["rn-1"] }

/-- A `chat` event payload with assistant role, non-empty text and
`type: 'message'`. -/
def dupChatPayload : EventPayload :=
  ⟨some "assistant", some "hi", some "message", none⟩

/-- Orchestrator state right after `start()` from idle: listening, one
capture session, the 10 s no-speech guard armed, no partial text yet. -/
def stListen : ConvState := beginListening initConvState true

/-- `stListen` after the partial transcript "hello". -/
def stPartial : ConvState := onPartialResult stListen "hello"

/-- `stPartial` after the silence countdown fires with final transcript
"hello" and a successful `chat.send`: processing, waiting, one 30 s
response timeout scheduled. -/
def stProcessing : ConvState := fireSilenceCountdown stPartial "hello" true true 0

/-- `stProcessing` after the assistant reply "hi there": speaking. -/
def stSpeaking : ConvState := onGatewayMessage stProcessing "hi there" 1

/-! ### Helper lemmas -/

lemma not_mem_filter_ne (l : List String) (id : String) :
    id ∉ l.filter (fun x => x != id) := by
  intro h
  rcases List.mem_filter.1 h with ⟨-, hb⟩
  simp at hb

/-- Truthiness of `_ws && _ws.readyState === WebSocket.OPEN`. -/
def wsOpen (st : GatewayState) : Bool :=
  st.ws == some WsReady.open

/-- C9: if `send` is called while the WebSocket is absent or not OPEN,
the promise rejects immediately with 'WebSocket not connected' and the
state — in particular the pending-request map, the sent frames and the
armed request timeouts — is left completely unchanged. -/
theorem gwSend_not_connected_atomic (st : GatewayState)
    (frame : GatewayRequest) (h : wsOpen st = false) :
    gwSend st frame = (st, .rejected "WebSocket not connected") := by
  rcases hw : st.ws with _ | rs
  · simp [gwSend, hw]
  · have hne : ¬rs = WsReady.open := by
      intro he
      rw [wsOpen, hw, he] at h
      simp at h
    simp [gwSend, hw, hne]

/-- Witness for C9 at a concrete closed-socket state. -/
theorem gwSend_not_connected_atomic_witness :
    wsOpen exPendingClose = false ∧
      gwSend exPendingClose ⟨"rn-2", "chat.send"⟩ =
        (exPendingClose, .rejected "WebSocket not connected") :=
  ⟨by decide, gwSend_not_connected_atomic exPendingClose ⟨"rn-2", "chat.send"⟩ (by decide)⟩

/-- C4: every pending registration is settled at most once.  Both the
response branch of `handleFrame` and the 30 s timeout remove the
registration when they settle it; whichever runs first wins, and the
later of the two finds no registration and acts as a no-op (the timeout
merely consumes its own schedule). -/
theorem pendingRequest_at_most_once (st : GatewayState)
    (id method : String) (ok : Bool) (errMsg : Option String) :
    id ∉ (handleRes st id ok errMsg).1.pending ∧
    id ∉ (fireRequestTimeout st id method).1.pending ∧
    ((handleRes st id ok errMsg).2 ≠ .noop →
      (fireRequestTimeout (handleRes st id ok errMsg).1 id method).2 = .noop ∧
      (fireRequestTimeout (handleRes st id ok errMsg).1 id method).1.pending =
        (handleRes st id ok errMsg).1.pending) ∧
    ((fireRequestTimeout st id method).2 ≠ .noop →
      handleRes (fireRequestTimeout st id method).1 id ok errMsg =
        ((fireRequestTimeout st id method).1, .noop)) ∧
    (id ∈ st.pending →
      (handleRes st id ok errMsg).2 ≠ .noop ∧
      (fireRequestTimeout st id method).2 ≠ .noop) := by
  by_cases hm : id ∈ st.pending
  · refine ⟨?_, ?_, ?_, ?_, ?_⟩
    · have hnm := not_mem_filter_ne st.pending id
      simp [handleRes, hm, hnm]
    · have hnm := not_mem_filter_ne st.pending id
      simp [fireRequestTimeout, hm, hnm]
    · intro _
      have hnm := not_mem_filter_ne st.pending id
      simp [handleRes, fireRequestTimeout, hm, hnm]
    · intro _
      have hnm := not_mem_filter_ne st.pending id
      simp [handleRes, fireRequestTimeout, hm, hnm]
    · intro _
      cases ok <;> simp [handleRes, fireRequestTimeout, hm]
  · refine ⟨?_, ?_, ?_, ?_, ?_⟩
    · simp [handleRes, hm]
    · simp [fireRequestTimeout, hm]
    · intro hne
      exact absurd (by simp [handleRes, hm]) hne
    · intro hne
      exact absurd (by simp [fireRequestTimeout, hm]) hne
    · intro hin
      exact absurd hin hm

/-- Witness for C4 at the concrete in-flight request `rn-1`. -/
theorem pendingRequest_at_most_once_witness :
    "rn-1" ∉ (handleRes exPendingClose "rn-1" true none).1.pending ∧
      (fireRequestTimeout (handleRes exPendingClose "rn-1" true none).1
          "rn-1" "chat.send").2 = .noop :=
  ⟨(pendingRequest_at_most_once exPendingClose "rn-1" "chat.send" true none).1,
   ((pendingRequest_at_most_once exPendingClose "rn-1" "chat.send" true none).2.2.1
      (by decide)).1⟩

/-- C2 (counterexample): a channel close with request `rn-1` pending.
Contrary to the claim, the `ws.onclose` handler rejects nothing: the
pending registration survives the close untouched and no
connection-lost rejection is issued. -/
theorem handleClose_pending_not_rejected :
    (handleClose exPendingClose).1.pending = ["rn-1"] ∧
      (handleClose exPendingClose).2.rejections = [] :=
  ⟨rfl, rfl⟩

/-- C2 (amended): on channel close the client clears the connected flag,
cancels the keepalive tick timer, signals 'disconnected', schedules one
reconnection attempt (idempotently) keeping the last-known
configuration — but leaves every pending request registered and rejects
none of them; each fails only later through its own 30 s timeout. -/
theorem handleClose_spec (st : GatewayState) :
    (handleClose st).1.isConnected = false ∧
    (handleClose st).1.tickTimerArmed = false ∧
    (handleClose st).1.reconnectTimerArmed = true ∧
    (handleClose st).1.config = st.config ∧
    (handleClose st).1.pending = st.pending ∧
    (handleClose st).1.requestTimeoutsArmed = st.requestTimeoutsArmed ∧
    (handleClose st).2.stateEvents = [ConnState.disconnected] ∧
    (handleClose st).2.rejections = [] := by
  by_cases hr : st.reconnectTimerArmed <;> simp [handleClose, hr]

/-- C7 (counterexample): a `chat` event whose payload has assistant role,
non-empty text "hi" and `type: 'message'` invokes the message handler
twice, not exactly once as the claim requires. -/
theorem handleEvent_double_invocation :
    (handleEvent "chat" dupChatPayload).messageCalls = [some "hi", some "hi"] ∧
      (handleEvent "chat" dupChatPayload).messageCalls.length = 2 :=
  ⟨rfl, rfl⟩

/-- C7 (amended): `chat` events invoke the handler only with the payload
text and only when the role is assistant — exactly once when the text is
non-empty, plus exactly one additional time when `payload.type` is
'message' (so one event invokes it twice when both hold, once when one
holds — possibly with empty/absent text — and never otherwise; the exact
invocation list and count are pinned below); `chat.reply` events invoke
it exactly once when the text is non-empty and never otherwise,
regardless of role; `chat.stream`, `connect.challenge` and unknown
events never invoke it. -/
theorem handleEvent_spec (ev : String) (p : EventPayload) :
    ((handleEvent "chat.stream" p).messageCalls = []) ∧
    ((handleEvent "connect.challenge" p).messageCalls = []) ∧
    (ev ≠ "connect.challenge" → ev ≠ "chat" → ev ≠ "chat.reply" →
      (handleEvent ev p).messageCalls = []) ∧
    (∀ t ∈ (handleEvent "chat" p).messageCalls, t = p.text) ∧
    ((handleEvent "chat" p).messageCalls ≠ [] → p.role = some "assistant") ∧
    ((handleEvent "chat" p).messageCalls ≠ [] ↔
      ((p.role == some "assistant") &&
        (truthy p.text || (p.ptype == some "message"))) = true) ∧
    ((handleEvent "chat.reply" p).messageCalls =
      if truthy p.text then [p.text] else []) ∧
    ((handleEvent "chat" p).messageCalls =
      (if (p.role == some "assistant") && truthy p.text then [p.text] else [])
        ++ (if (p.ptype == some "message") && (p.role == some "assistant")
            then [p.text] else [])) ∧
    ((handleEvent "chat" p).messageCalls.length =
      (if (p.role == some "assistant") && truthy p.text then 1 else 0)
        + (if (p.ptype == some "message") && (p.role == some "assistant")
           then 1 else 0)) := by
  refine ⟨by simp [handleEvent], by simp [handleEvent], ?_, ?_, ?_, ?_, ?_, ?_, ?_⟩
  · intro h1 h2 h3
    simp [handleEvent, h1, h2, h3]
  · intro t ht
    rcases hr : (p.role == some "assistant") with _ | _ <;>
      rcases htx : truthy p.text with _ | _ <;>
      rcases hp : (p.ptype == some "message") with _ | _ <;>
      simp [handleEvent, hr, htx, hp] at ht <;> simp [ht]
  · intro hne
    rcases hr : (p.role == some "assistant") with _ | _
    · simp [handleEvent, hr] at hne
    · exact eq_of_beq hr
  · constructor
    · intro hne
      rcases hr : (p.role == some "assistant") with _ | _ <;>
        rcases htx : truthy p.text with _ | _ <;>
        rcases hp : (p.ptype == some "message") with _ | _ <;>
        simp [handleEvent, hr, htx, hp] at hne ⊢
    · intro hcond
      rcases hr : (p.role == some "assistant") with _ | _ <;>
        rcases htx : truthy p.text with _ | _ <;>
        rcases hp : (p.ptype == some "message") with _ | _ <;>
        simp [hr, htx, hp] at hcond <;>
        simp [handleEvent, hr, htx, hp]
  · rcases htx : truthy p.text with _ | _ <;> simp [handleEvent, htx]
  · simp [handleEvent]
  · rcases hr : (p.role == some "assistant") with _ | _ <;>
      rcases htx : truthy p.text with _ | _ <;>
      rcases hp : (p.ptype == some "message") with _ | _ <;>
      simp [handleEvent, hr, htx, hp]

/-- Witness for C7 (amended) at concrete events: a plain assistant
`chat` event (no `type` field) invokes the handler exactly once, a
role-less `chat.reply` with non-empty text is surfaced, and an unknown
event is ignored. -/
theorem handleEvent_spec_witness :
    (handleEvent "chat" ⟨some "assistant", some "hi", none, none⟩).messageCalls.length
        = 1 ∧
      (handleEvent "chat.reply" ⟨none, some "x", none, none⟩).messageCalls
        = [some "x"] ∧
      (handleEvent "agent.status" dupChatPayload).messageCalls = [] :=
  ⟨by
    have h := (handleEvent_spec "chat"
      ⟨some "assistant", some "hi", none, none⟩).2.2.2.2.2.2.2.2
    simpa using h,
   by
    have h := (handleEvent_spec "chat.reply"
      ⟨none, some "x", none, none⟩).2.2.2.2.2.2.1
    simpa using h,
   (handleEvent_spec "agent.status" dupChatPayload).2.2.1
     (by decide) (by decide) (by decide)⟩

/-- C1 (counterexample): from a fresh listening session with zero
partial updates, firing the 10 s no-speech guard emits no ChatMessage
and keeps the phase Listening — but it does NOT restart the capture
session: the session count and the active listener are unchanged, and
the callback merely disarms the timer slot without arming anything. -/
theorem noSpeechGuard_no_restart :
    (fireNoSpeechGuard stListen).captureSessions = stListen.captureSessions ∧
    (fireNoSpeechGuard stListen).activeListener = stListen.activeListener ∧
    (fireNoSpeechGuard stListen).phase = .listening ∧
    (fireNoSpeechGuard stListen).emitted = [] ∧
    (fireNoSpeechGuard stListen).silenceTimer = none :=
  ⟨rfl, rfl, rfl, rfl, rfl⟩

/-- C1 (amended): if a listening session has seen no non-whitespace
partial text when the 10 s guard fires, no ChatMessage is emitted and
the phase remains Listening, but the existing capture session simply
continues — no new session is begun; the guard's callback runs
`resetSilenceTimer`, whose only effect is to leave the timer slot
disarmed. -/
theorem fireNoSpeechGuard_spec (st : ConvState)
    (hph : st.phase = .listening)
    (htxt : trimNonempty st.lastPartialText = false) :
    fireNoSpeechGuard st = { st with silenceTimer := none } := by
  simp [fireNoSpeechGuard, resetSilenceTimer, clearSilenceTimer, hph, htxt]

/-- Witness for C1 (amended) at the fresh listening state. -/
theorem fireNoSpeechGuard_spec_witness :
    fireNoSpeechGuard stListen = { stListen with silenceTimer := none } :=
  fireNoSpeechGuard_spec stListen (by decide) (by decide)

/-- C3: if the 30 s response timer fires while still waiting in
Processing, the waiting flag is cleared and the phase returns to
Listening with no message emitted; once the flag is cleared (by the
timer or by an earlier reply), a late reply leaves the state untouched
(no duplicate assistant ChatMessage) and a late timer expiry is a no-op
beyond consuming its own schedule. -/
theorem responseTimeout_spec (st : ConvState) (text : String) (now : Nat)
    (c : Bool) :
    (st.waitingForResponse = true → st.phase = .processing →
      (fireResponseTimer st true).waitingForResponse = false ∧
      (fireResponseTimer st true).phase = .listening ∧
      (fireResponseTimer st true).emitted = st.emitted) ∧
    (st.waitingForResponse = false → onGatewayMessage st text now = st) ∧
    (st.waitingForResponse = false →
      fireResponseTimer st c =
        { st with responseTimers := st.responseTimers - 1 }) := by
  refine ⟨?_, ?_, ?_⟩
  · intro hw hp
    simp [fireResponseTimer, beginListening, setPhase, hw, hp]
  · intro hw
    simp [onGatewayMessage, hw]
  · intro hw
    simp [fireResponseTimer, hw]

/-- Witness for C3: the timer fires in the concrete waiting Processing
state; afterwards a late reply at the fresh idle state (flag clear) is
ignored. -/
theorem responseTimeout_spec_witness :
    ((fireResponseTimer stProcessing true).waitingForResponse = false ∧
      (fireResponseTimer stProcessing true).phase = .listening ∧
      (fireResponseTimer stProcessing true).emitted = stProcessing.emitted) ∧
      onGatewayMessage initConvState "late reply" 7 = initConvState :=
  ⟨(responseTimeout_spec stProcessing "late reply" 7 true).1 (by decide) (by decide),
   (responseTimeout_spec initConvState "late reply" 7 true).2.1 (by decide)⟩

/-- C6 (counterexample): from the reachable Processing state with one
30 s response timeout scheduled, `stop()` reaches Idle but cannot cancel
that anonymous timeout — one timer is still scheduled afterwards, not
zero. -/
theorem stop_leaves_response_timer :
    (stop stProcessing).phase = .idle ∧
      stProcessing.responseTimers = 1 ∧
      (stop stProcessing).responseTimers = 1 :=
  ⟨rfl, rfl, rfl⟩

/-- C6 (amended): `stop()` from any state yields phase Idle with no
active capture session, no active synthesis, the tracked silence timer
disarmed and the waiting flag cleared; anonymous 30 s response timeouts
already scheduled are not cancelled (the code keeps no handle to them)
but, the waiting flag being cleared, each fires as a pure no-op. -/
theorem stop_spec (st : ConvState) (c : Bool) :
    (stop st).phase = .idle ∧
    (stop st).activeListener = false ∧
    (stop st).ttsActive = false ∧
    (stop st).silenceTimer = none ∧
    (stop st).waitingForResponse = false ∧
    (stop st).responseTimers = st.responseTimers ∧
    fireResponseTimer (stop st) c =
      { stop st with responseTimers := (stop st).responseTimers - 1 } := by
  by_cases hl : st.activeListener <;>
    by_cases hp : st.phase = Phase.idle <;>
    simp [stop, clearSilenceTimer, setPhase, fireResponseTimer, hl, hp]

/-- C8: `interrupt()` while Speaking stops audio output and re-enters
Listening directly — no Processing step, no ChatMessage emitted, the
waiting flag untouched (assuming the restarted capture starts cleanly);
`interrupt()` in any other phase leaves the state exactly unchanged. -/
theorem interrupt_spec (st : ConvState) (c : Bool) :
    (st.phase = .speaking →
      (interrupt st true).phase = .listening ∧
      (interrupt st true).ttsActive = false ∧
      (interrupt st true).emitted = st.emitted ∧
      (interrupt st true).waitingForResponse = st.waitingForResponse) ∧
    (st.phase ≠ .speaking → interrupt st c = st) := by
  constructor
  · intro hp
    simp [interrupt, beginListening, setPhase, hp]
  · intro hp
    simp [interrupt, hp]

/-- Witness for C8: interrupting the concrete Speaking state, and
interrupting while Idle. -/
theorem interrupt_spec_witness :
    ((interrupt stSpeaking true).phase = .listening ∧
      (interrupt stSpeaking true).ttsActive = false ∧
      (interrupt stSpeaking true).emitted = stSpeaking.emitted ∧
      (interrupt stSpeaking true).waitingForResponse =
        stSpeaking.waitingForResponse) ∧
      interrupt initConvState true = initConvState :=
  ⟨(interrupt_spec stSpeaking true).1 (by decide),
   (interrupt_spec initConvState true).2 (by decide)⟩

/-- C10: after any partial-transcript callback, the previously armed
timer (whichever it was, including the 10 s no-speech guard) is cleared,
and the silence countdown is armed if and only if the new partial text
is non-whitespace; for empty or whitespace-only text no timer at all is
left armed. -/
theorem onPartialResult_timer_spec (st : ConvState) (text : String) :
    ((onPartialResult st text).silenceTimer = some .silenceCountdown ↔
      trimNonempty text = true) ∧
    (trimNonempty text = false →
      (onPartialResult st text).silenceTimer = none) ∧
    ((onPartialResult st text).silenceTimer = none ∨
      (onPartialResult st text).silenceTimer = some .silenceCountdown) := by
  rcases h : trimNonempty text with _ | _ <;>
    simp [onPartialResult, resetSilenceTimer, clearSilenceTimer, h]

/-- Witness for C10: a whitespace-only partial arriving while the 10 s
guard is armed leaves zero armed timers; a non-whitespace partial arms
the countdown. -/
theorem onPartialResult_timer_spec_witness :
    (onPartialResult stListen "  ").silenceTimer = none ∧
      (onPartialResult stListen "hello").silenceTimer
        = some TimerKind.silenceCountdown :=
  ⟨(onPartialResult_timer_spec stListen "  ").2.1 (by decide),
   (onPartialResult_timer_spec stListen "hello").1.2 (by decide)⟩

set_option maxRecDepth 4096 in
/-- C5: the message store's `addMessage` appends
`[...state.messages.slice(-50), message]`, which retains up to 50 OLD
messages and then appends — so after 51 appends to an empty history the
store holds 51 messages, exceeding the claimed (and the code comment's
own) capacity of 50. -/
theorem addMessage_exceeds_capacity :
    (List.foldl addMessage []
        (List.replicate 51 (⟨.user, "m", 0⟩ : ChatMessage))).length = 51 ∧
      50 < (List.foldl addMessage []
        (List.replicate 51 (⟨.user, "m", 0⟩ : ChatMessage))).length := by
  have h : (List.foldl addMessage []
      (List.replicate 51 (⟨.user, "m", 0⟩ : ChatMessage))).length = 51 := by rfl
  exact ⟨h, by rw [h]; omega⟩

end OpenClawVoice

